import Mathlib

/-!
Verification of the Adobe Pass MVPD authorization core
(`yt_dlp/extractor/adobepass.py`, method `_extract_mvpd_auth` and its
local helpers).  The Python code is shallowly embedded: pure helpers
become Lean functions on `String`/`List Char`, and the network-driven
token exchange becomes a program in a small state monad that records
every HTTP request and every cache write as an event, with the network
and the external collaborators (HTML hidden-input scraping, timestamp
parsing, the static provider table, the special-cased provider login
flows that the verified paths never enter) supplied as an environment.
-/

namespace AdobePass

/-- The single-quote character, written via its code point. -/
def squote : Char := Char.ofNat 39

/-- Decidable list-prefix test used by all the scanners. -/
def isPrefixL : List Char → List Char → Bool
  | [], _ => true
  | _ :: _, [] => false
  | a :: as, b :: bs => a == b && isPrefixL as bs

/-- Substring test on character lists (Python's `pat in s`). -/
def hasSubL (pat : List Char) : List Char → Bool
  | [] => pat.isEmpty
  | l@(_ :: rest) => isPrefixL pat l || hasSubL pat rest

/-- Python's `pat in s` on strings. -/
def hasSub (s pat : String) : Bool := hasSubL pat.toList s.toList

/-- Errors: `ExtractorError msg expected`, the `RegexNotFoundError`
raised by a fatal `_search_regex` (identified by the field name), and a
Python `KeyError` on a missing dict key. -/
inductive Err where
  | extractor : String → Bool → Err
  | regexNotFound : String → Err
  | keyErr : String → Err
deriving Repr, DecidableEq

instance {ε α : Type} [DecidableEq ε] [DecidableEq α] : DecidableEq (Except ε α)
  | Except.ok a, Except.ok b =>
    if h : a = b then isTrue (by rw [h]) else isFalse (by intro hh; cases hh; exact h rfl)
  | Except.ok _, Except.error _ => isFalse (by intro hh; cases hh)
  | Except.error _, Except.ok _ => isFalse (by intro hh; cases hh)
  | Except.error e, Except.error f =>
    if h : e = f then isTrue (by rw [h]) else isFalse (by intro hh; cases hh; exact h rfl)

/-- Lazy nonempty newline-free content match: the `(.+?)` of the regex
`<tag>(.+?)</tag>` starting right after the opening tag.  Returns the
shortest content (at least one character, no newline) followed by
`closeP`. -/
def grabContent (closeP : List Char) : List Char → Option (List Char)
  | [] => none
  | c :: rest =>
    if c == '\n' then none
    else if isPrefixL closeP rest then some [c]
    else match grabContent closeP rest with
      | some cs => some (c :: cs)
      | none => none

/-- One attempt of `<tag>(.+?)</tag>` at the current position. -/
def xmlTry (openP closeP l : List Char) : Option (List Char) :=
  if isPrefixL openP l then grabContent closeP (l.drop openP.length) else none

/-- `re.search` over the whole input for `<tag>(.+?)</tag>`: leftmost
starting position wins. -/
def xmlScan (openP closeP : List Char) : List Char → Option (List Char)
  | [] => none
  | l@(_ :: rest) =>
    match xmlTry openP closeP l with
    | some cs => some cs
    | none => xmlScan openP closeP rest

/-- `xml_text(xml_str, tag)`: `_search_regex(f'<{tag}>(.+?)</{tag}>',
xml_str, tag)` with the fatal default.  Modelled from the spec:
`_search_regex` itself is outside the provided sources; per the spec a
missing expected token field is a fatal `ParseError`, and a present one
returns the captured group. -/
def xml_text (xml_str tag : String) : Except Err String :=
  match xmlScan ("<" ++ tag ++ ">").toList ("</" ++ tag ++ ">").toList xml_str.toList with
  | some content => Except.ok (String.mk content)
  | none => Except.error (Err.regexNotFound tag)

/-- One step of `re.sub(r'[_ ]GMT', '', s)`: fuel-indexed scanner
removing every (non-overlapping, left-to-right) underscore-or-space
followed by `GMT`. -/
def gmtFuel : Nat → List Char → List Char
  | 0, l => l
  | _ + 1, [] => []
  | f + 1, c :: rest =>
    if (c == '_' || c == ' ') && isPrefixL "GMT".toList rest then
      gmtFuel f (rest.drop 3)
    else c :: gmtFuel f rest

/-- `re.sub(r'[_ ]GMT', '', s)`. -/
def subGmt (s : String) : String := String.mk (gmtFuel s.length s.toList)

/-- `is_expired(token, date_ele)`.  `unified_timestamp` is an external
collaborator supplied as `parseTs`; `now` is `int(time.time())`.  The
Python return value `token_expires and token_expires <= now` is truthy
iff the timestamp parsed, is nonzero, and is at most `now`. -/
def is_expired (parseTs : String → Option Int) (now : Int) (token date_ele : String) :
    Except Err Bool :=
  match xml_text token date_ele with
  | Except.error e => Except.error e
  | Except.ok s =>
    match parseTs (subGmt s) with
    | none => Except.ok false
    | some t => Except.ok (decide (t ≠ 0) && decide (t ≤ now))

/-- Decimal-digit timestamp parser, a concrete instantiation of the
`unified_timestamp` collaborator used by witnesses. -/
def parseDec (s : String) : Option Int :=
  let l := s.toList
  if !l.isEmpty && l.all Char.isDigit then
    some (Int.ofNat (l.foldl (fun a c => a * 10 + (c.toNat - 48)) 0))
  else none

example : xml_text "<a>hi</a>" "a" = Except.ok "hi" := by decide
example : xml_text "zz" "a" = Except.error (Err.regexNotFound "a") := by decide
example : subGmt "2024 GMT_GMTx" = "2024x" := by decide
example : is_expired parseDec 1000 "<e>500</e>" "e" = Except.ok true := by decide
example : is_expired parseDec 1000 "<e>1000</e>" "e" = Except.ok true := by decide
example : is_expired parseDec 1000 "<e>1001</e>" "e" = Except.ok false := by decide
example : is_expired parseDec 1000 "<e>0</e>" "e" = Except.ok false := by decide
example : is_expired parseDec 1000 "<e>zz</e>" "e" = Except.ok false := by decide
example : is_expired parseDec 1000 "no field" "e" = Except.error (Err.regexNotFound "e") := by decide

/-- Split a character list at the first occurrence of `pat`, returning
the part before and the part after the occurrence. -/
def splitSubL (pat : List Char) : List Char → Option (List Char × List Char)
  | [] => if pat.isEmpty then some ([], []) else none
  | l@(c :: rest) =>
    if isPrefixL pat l then some ([], l.drop pat.length)
    else match splitSubL pat rest with
      | some (a, b) => some (c :: a, b)
      | none => none

/-- Lower-case a character (for the case-insensitive scanners and for
URL scheme/host normalisation). -/
def lcChar (c : Char) : Char := c.toLower

/-- The scheme/netloc/rest decomposition used from `urllib.parse`.
Modelled from the spec: the URL parsing primitive is an external
collaborator; this models it for the `scheme://netloc/rest` URL shapes
the subsystem handles, with the scheme lower-cased as the library does. -/
structure UrlParts where
  scheme : String
  netloc : String
  rest : String
deriving Repr, DecidableEq

/-- `urllib.parse.urlparse`, reduced to the three components the code
reads (`scheme`, `hostname` via `netloc`, and everything after). -/
def urlparse (u : String) : UrlParts :=
  match splitSubL "://".toList u.toList with
  | some (sch, rest0) =>
    let netloc := rest0.takeWhile (fun c => c ≠ '/' && c ≠ '?' && c ≠ '#')
    ⟨String.mk (sch.map lcChar), String.mk netloc, String.mk (rest0.drop netloc.length)⟩
  | none => ⟨"", "", u⟩

/-- `urlparse(u).hostname`: the netloc with any userinfo and port
stripped, lower-cased; `None` when empty. -/
def hostnameOf (p : UrlParts) : Option String :=
  let hostport :=
    match splitSubL "@".toList p.netloc.toList with
    | some (_, h) => h
    | none => p.netloc.toList
  let host := hostport.takeWhile (fun c => c ≠ ':')
  if host.isEmpty then none else some (String.mk (host.map lcChar))

/-- `urllib.parse.urlunparse` on the reduced decomposition. -/
def urlunparse (p : UrlParts) : String :=
  if p.scheme = "" then
    (if p.netloc = "" then p.rest else "//" ++ p.netloc ++ p.rest)
  else p.scheme ++ "://" ++ p.netloc ++ p.rest

/-- Drop the last path segment, keeping the trailing slash (helper for
relative resolution); an empty result becomes the root path. -/
def dropLastSeg (path : List Char) : List Char :=
  let kept := (path.reverse.dropWhile (fun c => c ≠ '/')).reverse
  if kept.isEmpty then ['/'] else kept

/-- `urllib.parse.urljoin`.  Modelled from the spec: resolution of a
relative URL against a base is an external collaborator; this models
the absolute, network-path, root-relative and plain-relative cases the
login flows produce. -/
def urljoin (base rel : String) : String :=
  if rel = "" then base
  else if (splitSubL "://".toList rel.toList).isSome then rel
  else
    let b := urlparse base
    if b.scheme = "" then rel
    else if isPrefixL "//".toList rel.toList then b.scheme ++ ":" ++ rel
    else if isPrefixL "/".toList rel.toList then b.scheme ++ "://" ++ b.netloc ++ rel
    else
      let path := b.rest.toList.takeWhile (fun c => c ≠ '?' && c ≠ '#')
      b.scheme ++ "://" ++ b.netloc ++ String.mk (dropLastSeg path) ++ rel

/-- One step of HTML-entity unescaping.  Modelled from the spec:
`unescapeHTML` is an external collaborator that "unescapes HTML
entities"; the five standard entities are modelled. -/
def unescapeFuel : Nat → List Char → List Char
  | 0, l => l
  | _ + 1, [] => []
  | f + 1, l@(c :: rest) =>
    if isPrefixL "&amp;".toList l then '&' :: unescapeFuel f (l.drop 5)
    else if isPrefixL "&lt;".toList l then '<' :: unescapeFuel f (l.drop 4)
    else if isPrefixL "&gt;".toList l then '>' :: unescapeFuel f (l.drop 4)
    else if isPrefixL "&quot;".toList l then '"' :: unescapeFuel f (l.drop 6)
    else if isPrefixL "&#39;".toList l then squote :: unescapeFuel f (l.drop 5)
    else c :: unescapeFuel f rest

/-- `unescapeHTML` on a string. -/
def unescapeHTML (s : String) : String := String.mk (unescapeFuel s.length s.toList)

/-- Case-insensitive prefix test; `pat` is given lower-case. -/
def isPrefixCI : List Char → List Char → Bool
  | [], _ => true
  | _ :: _, [] => false
  | a :: as, b :: bs => a == lcChar b && isPrefixCI as bs

/-- The regex class `\s` (ASCII whitespace). -/
def isSpaceCh (c : Char) : Bool :=
  c == ' ' || c == '\t' || c == '\n' || c == '\r' || c == Char.ofNat 11 || c == Char.ofNat 12

/-- A character of the attribute-name class `[a-z-]` under `(?i)`. -/
def isAttrNameCh (c : Char) : Bool :=
  (lcChar c ≥ 'a' && lcChar c ≤ 'z') || c == '-'

/-- One HTML attribute of the meta-refresh regex,
`[a-z-]+="[^"]+"\s+`, returning the remainder after the trailing
whitespace. -/
def parseAttr (l : List Char) : Option (List Char) :=
  let name := l.takeWhile isAttrNameCh
  if name.isEmpty then none
  else
    match l.drop name.length with
    | '=' :: '"' :: r1 =>
      let v := r1.takeWhile (fun c => c ≠ '"')
      if v.isEmpty then none
      else
        match r1.drop v.length with
        | '"' :: r2 =>
          let ws := r2.takeWhile isSpaceCh
          if ws.isEmpty then none else some (r2.drop ws.length)
        | _ => none
    | _ => none

/-- The lookahead `(?=(?:[a-z-]+="[^"]+"\s+)*http-equiv="refresh")` of
the meta-refresh regex, fuel-indexed by the remaining input length. -/
def lookRefresh : Nat → List Char → Bool
  | 0, _ => false
  | f + 1, l =>
    isPrefixCI "http-equiv=\"refresh\"".toList l ||
      match parseAttr l with
      | some rest => lookRefresh f rest
      | none => false

/-- The tail of the meta-refresh regex at a `content="` position:
`content="[0-9]{,2};\s*(?:URL|url)=\'?([^\'"]+)` (all case-insensitive
under `(?i)`). -/
def tryContent (l : List Char) : Option (List Char) :=
  if isPrefixCI "content=\"".toList l then
    let r0 := l.drop 9
    let ds := (r0.takeWhile Char.isDigit).take 2
    match r0.drop ds.length with
    | ';' :: r1 =>
      let r2 := r1.dropWhile isSpaceCh
      if isPrefixCI "url=".toList r2 then
        let r3 := r2.drop 4
        let r4 := if r3.head? == some squote then r3.drop 1 else r3
        let cap := r4.takeWhile (fun c => c ≠ squote && c ≠ '"')
        if cap.isEmpty then none else some cap
      else none
    | _ => none
  else none

/-- The lazy attribute loop `(?:[a-z-]+="[^"]+"\s+)*?content="…`:
shortest attribute run whose continuation matches the content tail. -/
def lazyContent : Nat → List Char → Option (List Char)
  | 0, _ => none
  | f + 1, l =>
    match tryContent l with
    | some cap => some cap
    | none =>
      match parseAttr l with
      | some rest => lazyContent f rest
      | none => none

/-- One attempt of the whole meta-refresh regex at the current
position: `<meta\s+` then the lookahead, then the lazy content match. -/
def metaTry (l : List Char) : Option (List Char) :=
  if isPrefixCI "<meta".toList l then
    let l1 := l.drop 5
    let ws := l1.takeWhile isSpaceCh
    if ws.isEmpty then none
    else
      let l2 := l1.drop ws.length
      if lookRefresh l2.length l2 then lazyContent l2.length l2 else none
  else none

/-- `re.search` of the meta-refresh regex: leftmost match wins. -/
def metaScan : List Char → Option (List Char)
  | [] => none
  | l@(_ :: rest) =>
    match metaTry l with
    | some cap => some cap
    | none => metaScan rest

/-- The raw capture of the meta-refresh regex of
`extract_redirect_url`, if any. -/
def findMetaRefresh (html : String) : Option String :=
  (metaScan html.toList).map String.mk

/-- `extract_redirect_url(html, url=, fatal=)`: `None` (or a fatal
`RegexNotFoundError` named "meta refresh redirect") when the regex does
not match; otherwise the capture, HTML-unescaped and resolved against
`url` exactly when `url` is given. -/
def extract_redirect_url (html : String) (url : Option String) (fatal : Bool) :
    Except Err (Option String) :=
  match findMetaRefresh html with
  | none =>
    if fatal then Except.error (Err.regexNotFound "meta refresh redirect")
    else Except.ok none
  | some r =>
    match url with
    | some u => Except.ok (some (urljoin u (unescapeHTML r)))
    | none => Except.ok (some r)

example :
    findMetaRefresh "<meta http-equiv=\"refresh\" content=\"0;URL=/next\">" = some "/next" := by
  decide
example :
    findMetaRefresh "<meta content=\"2; url=https://a.example/x\" http-equiv=\"Refresh\">" =
      some "https://a.example/x" := by
  decide
example : findMetaRefresh "<meta name=\"x\" content=\"0;URL=/next\">" = none := by decide
example : findMetaRefresh "no tags here" = none := by decide
example :
    extract_redirect_url "<meta http-equiv=\"refresh\" content=\"0;URL=/next\">"
      (some "https://h.example.com/a/b") false = Except.ok (some "https://h.example.com/next") := by
  decide
example : urljoin "https://h.example.com/a/b" "c/d" = "https://h.example.com/a/c/d" := by decide
example : urljoin "https://h.example.com" "/x" = "https://h.example.com/x" := by decide
example : hostnameOf (urlparse "https://User@Login.Example.com:443/p?q") =
    some "login.example.com" := by decide
example : urlunparse { urlparse "http://h.example.com/p?q" with scheme := "https" } =
    "https://h.example.com/p?q" := by decide
example : unescapeHTML "/a&amp;b&lt;c" = "/a&b<c" := by decide

/-- Content captured up to (excluding) the first occurrence of the
quote `q`: the `(.+?)\1` part of the quoted-capture regexes.  Fails on
a newline or when the quote never occurs; the caller requires the
result nonempty. -/
def takeToQuote (q : Char) : List Char → Option (List Char)
  | [] => none
  | c :: rest =>
    if c == q then some []
    else if c == '\n' then none
    else match takeToQuote q rest with
      | some cs => some (c :: cs)
      | none => none

/-- `(["\'])(?P<url>.+?)\1` at the current position. -/
def quotedCapture : List Char → Option String
  | [] => none
  | q :: r =>
    if q == '"' || q == squote then
      match takeToQuote q r with
      | some (c :: cs) => some (String.mk (c :: cs))
      | _ => none
    else none

/-- One attempt of `action=(["\'])(?P<url>.+?)\1` at offset `k` after
the `<form` literal (the `[^>]+` run has length `k`). -/
def tryActionAt (l : List Char) (k : Nat) : Option String :=
  if isPrefixL "action=".toList (l.drop k) then quotedCapture (l.drop (k + 7))
  else none

/-- Backtracking over the greedy `[^>]+`: the largest viable offset is
tried first, down to one. -/
def formActionSearch (l : List Char) : Nat → Option String
  | 0 => none
  | k + 1 =>
    match tryActionAt l (k + 1) with
    | some u => some u
    | none => formActionSearch l k

/-- One attempt of the form-action regex right after a `<form`
literal. -/
def formActionTry (l : List Char) : Option String :=
  formActionSearch l (l.takeWhile (fun c => c ≠ '>')).length

/-- `re.search(r'<form[^>]+action=(["\'])(?P<url>.+?)\1', html)`:
the post target of `post_form` (case-sensitive). -/
def findFormAction : List Char → Option String
  | [] => none
  | l@(_ :: rest) =>
    if isPrefixL "<form".toList l then
      match formActionTry (l.drop 5) with
      | some u => some u
      | none => findFormAction rest
    else findFormAction rest

example : findFormAction "<form name=\"x\" action=\"https://a.example/l\">".toList =
    some "https://a.example/l" := by decide
example : findFormAction "<form data-action=\"x\" action=\"/y\">".toList = some "/y" := by decide
example : findFormAction "<div>no form</div>".toList = none := by decide

/-- `re.match(r'https?://', post_url)` (anchored, case-sensitive). -/
def startsHttp (u : String) : Bool :=
  isPrefixL "http://".toList u.toList || isPrefixL "https://".toList u.toList

/-- Python truthiness of an optional string: `None` and the empty
string are falsy. -/
def truthy : Option String → Bool
  | none => false
  | some s => decide (s ≠ "")

/-- Render an optional string the way a Python f-string renders it. -/
def optStr : Option String → String
  | none => "None"
  | some s => s

/-- An HTTP request as recorded in the event trace: target URL, the
progress note of the call, and the urlencoded form/query/JSON payload
as a key-value list. -/
structure Request where
  url : String
  note : String
  payload : List (String × String)
deriving Repr, DecidableEq

/-- A downloaded page: response body, final resolved URL (`urlh.url`)
and response headers. -/
structure Page where
  body : String
  url : String
  headers : List (String × String)
deriving Repr, DecidableEq

/-- Observable events of one `_extract_mvpd_auth` run: HTTP requests
and cache writes (`self.cache.store(self._MVPD_CACHE, key, record)`;
the namespace is the fixed constant, so only the key is recorded). -/
inductive Event where
  | req : Request → Event
  | cacheStore : String → List (String × String) → Event
deriving Repr, DecidableEq

/-- The mutable state threaded through a run: the persistent cache
(keyed by requestor id) and the chronological event trace. -/
structure St where
  cacheSt : List (String × List (String × String))
  events : List Event
deriving Repr, DecidableEq

/-- The effect monad of the embedding: state plus `ExtractorError`
exceptions, with the state (in particular the trace of already-issued
requests) preserved when an exception aborts the run. -/
def M (α : Type) : Type := St → Except Err α × St

/-- Monadic return. -/
def mPure {α : Type} (a : α) : M α := fun s => (Except.ok a, s)

/-- Monadic bind; an error short-circuits but keeps the state. -/
def mBind {α β : Type} (x : M α) (f : α → M β) : M β := fun s =>
  match x s with
  | (Except.ok a, s1) => f a s1
  | (Except.error e, s1) => (Except.error e, s1)

instance monadM : Monad M where
  pure := mPure
  bind := mBind

/-- `raise` of an `ExtractorError` (or subclass). -/
def mThrow {α : Type} (e : Err) : M α := fun s => (Except.error e, s)

/-- Lift a pure fallible computation. -/
def liftE {α : Type} (x : Except Err α) : M α := fun s => (x, s)

/-- Append an event to the trace. -/
def record (ev : Event) : M Unit := fun s =>
  (Except.ok (), { s with events := s.events ++ [ev] })

/-- Dictionary lookup (`d.get(k)`). -/
def dget {β : Type} (d : List (String × β)) (k : String) : Option β :=
  match d.find? (fun p => p.1 == k) with
  | some p => some p.2
  | none => none

/-- Dictionary update of a single key (`d[k] = v`). -/
def dset {β : Type} : List (String × β) → String → β → List (String × β)
  | [], k, v => [(k, v)]
  | p :: rest, k, v => if p.1 == k then (k, v) :: rest else p :: dset rest k v

/-- `base.update(upd)` on dictionaries. -/
def dictUpdate (base : List (String × String)) : List (String × String) → List (String × String)
  | [] => base
  | (k, v) :: rest => dictUpdate (dset base k v) rest

/-- `self.cache.load(self._MVPD_CACHE, key)`. -/
def cacheLoadM (key : String) : M (Option (List (String × String))) := fun s =>
  (Except.ok (dget s.cacheSt key), s)

/-- `self.cache.store(self._MVPD_CACHE, key, rec)`: updates the
persistent cache and records the write in the trace. -/
def cacheStoreM (key : String) (rec : List (String × String)) : M Unit := fun s =>
  (Except.ok (), { cacheSt := dset s.cacheSt key rec, events := s.events ++ [Event.cacheStore key rec] })

/-- A provider profile from the static `MSO_INFO` table (an external
collaborator), reduced to the fields the core reads. -/
structure MsoInfo where
  username_field : Option String
  password_field : Option String
  login_hostname : Option String
deriving Repr, DecidableEq

/-- The environment of one `_extract_mvpd_auth` call: the network
oracle (page and JSON variants), the configured provider and its
profile, the credentials, and the external collaborators
(`unified_timestamp`, the current time, the random device fingerprint,
`_hidden_inputs`, and the provider-specific login flows that are not
embedded concretely). -/
structure Env where
  net : Request → Page
  netJson : Request → List (String × String) × Page
  msoId : Option String
  msoInfo : MsoInfo
  apUsername : Option String
  apPassword : Option String
  parseTs : String → Option Int
  now : Int
  fingerprint : String
  hiddenInputs : String → List (String × String)
  specialDriver : String → Page → String → String → M Unit

/-- `_download_webpage` / `_download_webpage_handle`: records the
request and returns the oracle's page. -/
def downloadPage (env : Env) (u note : String) (payload : List (String × String)) : M Page :=
  mBind (record (Event.req ⟨u, note, payload⟩)) fun _ => mPure (env.net ⟨u, note, payload⟩)

/-- `_download_json` / `_download_json_handle`. -/
def downloadJson (env : Env) (u note : String) (payload : List (String × String)) :
    M (List (String × String) × Page) :=
  mBind (record (Event.req ⟨u, note, payload⟩)) fun _ => mPure (env.netJson ⟨u, note, payload⟩)

/-- `j[k]` on a parsed JSON object: `KeyError` when absent. -/
def jget (j : List (String × String)) (k : String) : M String :=
  match dget j k with
  | some v => mPure v
  | none => mThrow (Err.keyErr k)

/-- `mso_info[k]` for a profile field: `KeyError` when absent. -/
def mgetField (o : Option String) (k : String) : M String :=
  match o with
  | some v => mPure v
  | none => mThrow (Err.keyErr k)

/-- The resolved form action: absolute as-is, otherwise joined against
the page URL. -/
def resolvedActionUrl (page : Page) (a : String) : String :=
  if startsHttp a then a else urljoin page.url a

/-- The hostname-mismatch `ExtractorError` message. -/
def hostnameMismatchMsg (expected got : Option String) : String :=
  "Unexpected login URL hostname; expected \"" ++ optStr expected ++ "\" but got \"" ++
    optStr got ++ "\". Aborting before submitting credentials"

/-- The credential-submission validation of `post_form` under
`validate_url=True`: abort on a login-hostname mismatch, silently
upgrade a non-https scheme. -/
def validateActionUrl (info : MsoInfo) (pu : String) : Except Err String :=
  let up := urlparse pu
  if truthy info.login_hostname = true ∧ info.login_hostname ≠ hostnameOf up then
    Except.error (Err.extractor (hostnameMismatchMsg info.login_hostname (hostnameOf up)) false)
  else if up.scheme ≠ "https" then Except.ok (urlunparse { up with scheme := "https" })
  else Except.ok pu

/-- `post_form(form_page_res, note, data, validate_url)`: extract the
form action (fatal), resolve it, validate/upgrade it when the call
carries credentials, merge `data` over the page's hidden inputs, and
POST.  The POST is the only request; every failure precedes it. -/
def post_form (env : Env) (form_page_res : Page) (note : String)
    (data : List (String × String)) (validate_url : Bool) : M Page :=
  mBind
    (match findFormAction form_page_res.body.toList with
     | some u => mPure u
     | none => mThrow (Err.regexNotFound "post url")) fun post_url0 =>
  let post_url1 := resolvedActionUrl form_page_res post_url0
  mBind
    (if validate_url then liftE (validateActionUrl env.msoInfo post_url1) else mPure post_url1)
    fun post_url =>
  downloadPage env post_url note (dictUpdate (env.hiddenInputs form_page_res.body) data)

/-- `_search_regex` result handling: fatal when the pattern found
nothing. -/
def searchOr (r : Option String) (name : String) : M String :=
  match r with
  | some u => mPure u
  | none => mThrow (Err.regexNotFound name)

/-- `re.search` for a literal marker followed by `(["\'])(.+?)\1`
(used for `self.parent.location=`). -/
def scanMarkerQuoted (marker : List Char) : List Char → Option String
  | [] => none
  | l@(_ :: rest) =>
    if isPrefixL marker l then
      match quotedCapture (l.drop marker.length) with
      | some u => some u
      | none => scanMarkerQuoted marker rest
    else scanMarkerQuoted marker rest

/-- One attempt of `var\surl\s*=\s*(["\'])(?P<url>.+?)\1`. -/
def varUrlTry (l : List Char) : Option String :=
  if isPrefixL "var".toList l then
    match l.drop 3 with
    | c :: r1 =>
      if isSpaceCh c && isPrefixL "url".toList r1 then
        match (r1.drop 3).dropWhile isSpaceCh with
        | '=' :: r3 => quotedCapture (r3.dropWhile isSpaceCh)
        | _ => none
      else none
    | [] => none
  else none

/-- `re.search` of the `var url = '…'` pattern. -/
def scanVarUrl : List Char → Option String
  | [] => none
  | l@(_ :: rest) =>
    match varUrlTry l with
    | some u => some u
    | none => scanVarUrl rest

/-- One attempt of `xmlHttp\.open\("POST"\s*,\s*(["\'])(?P<url>.+?)\1`. -/
def xmlHttpTry (l : List Char) : Option String :=
  if isPrefixL "xmlHttp.open(\"POST\"".toList l then
    match (l.drop 19).dropWhile isSpaceCh with
    | ',' :: r2 => quotedCapture (r2.dropWhile isSpaceCh)
    | _ => none
  else none

/-- `re.search` of the `xmlHttp.open("POST", …)` pattern. -/
def scanXmlHttpOpen : List Char → Option String
  | [] => none
  | l@(_ :: rest) =>
    match xmlHttpTry l with
    | some u => some u
    | none => scanXmlHttpOpen rest

/-- The fixed broker endpoint template
(`_SERVICE_PROVIDER_TEMPLATE % step`). -/
def SERVICE_PROVIDER (s : String) : String := "https://sp.auth.adobe.com/adobe-services/" ++ s

/-- `_USER_AGENT`. -/
def USER_AGENT : String := "Mozilla/5.0 (X11; Linux i686; rv:47.0) Gecko/20100101 Firefox/47.0"

/-- `_DOWNLOADING_LOGIN_PAGE`. -/
def DOWNLOADING_LOGIN_PAGE : String := "Downloading Provider Login Page"

/-- The message of `raise_mvpd_required()`. -/
def mvpdRequiredMsg : String :=
  "This video is only available for users of participating TV providers. " ++
  "Use --ap-mso to specify Adobe Pass Multiple-system operator Identifier " ++
  "and --ap-username and --ap-password or --netrc to provide account credentials."

/-- `raise_mvpd_required()` raises an expected `ExtractorError`. -/
def mvpdRequiredErr : Err := Err.extractor mvpdRequiredMsg true

/-- The initial `mvpd_headers` dict. -/
def initMvpdHeaders : List (String × Option String) :=
  [("ap_42", some "anonymous"), ("ap_11", some "Linux i686"),
   ("ap_z", some USER_AGENT), ("User-Agent", some USER_AGENT)]

/-- The Verizon marker `'N'== "Y"` (built without literal quote
characters). -/
def verizonMarkerNY : String := String.mk [squote] ++ "N" ++ String.mk [squote] ++ "== \"Y\""

/-- The invalid-credentials message of the Verizon FiOS branch. -/
def verizonWrongCredsMsg1 : String :=
  "We\x27re sorry, but either the User ID or Password entered is not correct."

/-- The invalid-credentials message of the Verizon ABC branch. -/
def verizonWrongCredsMsg2 : String := "Failed to login, incorrect User ID or Password."

/-- The three literal `.replace` calls applied to the scraped Verizon
ABC redirect URL (`\/` to `/`, `\-` to `-`, `\x26` to `&`). -/
def vzUnescapeUrl (u0 : String) : String :=
  ((u0.replace "\\/" "/").replace "\\-" "-").replace "\\x26" "&"

/-- The shared tail of the Verizon flow: scrape the SAML login URL,
download the SAML response JSON, POST it to the target. -/
def verizonTail (env : Env) (saml_login_page : String) : M Unit :=
  mBind (searchOr (scanXmlHttpOpen saml_login_page.toList) "SAML Login URL") fun saml_login_url =>
  mBind (downloadJson env saml_login_url "Downloading SAML Response" []) fun jres =>
  mBind (jget jres.1 "targetValue") fun tv =>
  mBind (jget jres.1 "SAMLResponse") fun sr =>
  mBind (jget jres.1 "RelayState") fun rs =>
  mBind (downloadPage env tv "Confirming Login" [("SAMLResponse", sr), ("RelayState", rs)]) fun _ =>
  mPure ()

/-- The Verizon login driver (`mso_id == 'Verizon'`): three page-shape
branches, two of which check the provider's explicit "Please try
again." invalid-credential marker and abort with an
`ExtractorError`. -/
def verizonFlow (env : Env) (page_res : Page) (username passText : String) : M Unit :=
  if hasSub page_res.body "Please wait ..." = true ∧ hasSub page_res.body verizonMarkerNY = false then
    mBind (searchOr (scanMarkerQuoted "self.parent.location=".toList page_res.body.toList)
      "SAML Redirect URL") fun saml_redirect_url =>
    mBind (downloadPage env saml_redirect_url "Downloading SAML Login Page" []) fun p =>
    verizonTail env p.body
  else if hasSub page_res.body "Verizon FiOS - sign in" = true then
    mBind (mgetField env.msoInfo.username_field "username_field") fun uf =>
    mBind (mgetField env.msoInfo.password_field "password_field") fun pf =>
    mBind (post_form env page_res "Logging in" [(uf, username), (pf, passText)] true) fun slp =>
    if hasSub slp.body "Please try again." = true then
      mThrow (Err.extractor verizonWrongCredsMsg1 false)
    else verizonTail env slp.body
  else
    mBind (searchOr (scanVarUrl page_res.body.toList) "SAML Redirect URL") fun u0 =>
    let u1 := vzUnescapeUrl u0
    mBind (downloadPage env u1 "Downloading SAML Login Page" []) fun p =>
    mBind (mgetField env.msoInfo.username_field "username_field") fun uf =>
    mBind (mgetField env.msoInfo.password_field "password_field") fun pf =>
    mBind (post_form env ⟨p.body, u1, []⟩ "Logging in" [(uf, username), (pf, passText)] true) fun slp =>
    if hasSub slp.body "Please try again." = true then
      mThrow (Err.extractor verizonWrongCredsMsg2 false)
    else verizonTail env slp.body

/-- The default login driver: optional meta-refresh hop, login-page
POST, credential POST (validated), and — except for Rogers — a final
confirmation POST.  Cablevision/AlticeOne add the `_eventId_proceed`
marker field. -/
def defaultFlow (env : Env) (page_res : Page) (username passText msoId : String) : M Unit :=
  mBind (liftE (extract_redirect_url page_res.body (some page_res.url) false)) fun redirect =>
  mBind (match redirect with
    | some r => downloadPage env r "Downloading Provider Redirect Page (meta refresh)" []
    | none => mPure page_res) fun page_res2 =>
  mBind (post_form env page_res2 DOWNLOADING_LOGIN_PAGE [] false) fun provider_login_page_res =>
  let form_data := [(env.msoInfo.username_field.getD "username", username),
                    (env.msoInfo.password_field.getD "password", passText)]
  let form_data :=
    if msoId = "Cablevision" ∨ msoId = "AlticeOne" then form_data ++ [("_eventId_proceed", "")]
    else form_data
  mBind (post_form env provider_login_page_res "Logging in" form_data true) fun confirm_res =>
  if msoId ≠ "Rogers" then
    mBind (post_form env confirm_res "Confirming Login" [] false) fun _ => mPure ()
  else mPure ()

/-- The re-authentication block of `_extract_mvpd_auth` (entered when
no valid cached authn token exists): configuration checks, device and
client registration, access token, registration code, provider
redirect, login-driver dispatch, and the broker session request.
Returns the updated `mvpd_headers` together with `none` on a
`pendingLogout` (cache cleared, outer loop continues) or the fresh
authn token and updated cache record.  Login flows other than the
Verizon and default drivers are supplied by the environment as an
abstract collaborator. -/
def loginStep (env : Env) (url requestor_id software_statement : String)
    (requestor_info : List (String × String)) (headers : List (String × Option String)) :
    M (List (String × Option String) × Option (String × List (String × String))) :=
  mBind (if truthy env.msoId = false then mThrow mvpdRequiredErr else mPure ()) fun _ =>
  mBind (if truthy env.apUsername = false ∨ truthy env.apPassword = false then
    mThrow mvpdRequiredErr else mPure ()) fun _ =>
  let msoId := env.msoId.getD ""
  let username := env.apUsername.getD ""
  let passText := env.apPassword.getD ""
  mBind (downloadJson env "https://sp.auth.adobe.com/indiv/devices" "Registering device with Adobe"
    [("fingerprint", env.fingerprint)]) fun dres =>
  mBind (jget dres.1 "deviceId") fun device_id =>
  let headers := dset headers "pass_sfp" (dget dres.2.headers "pass_sfp")
  let headers := dset headers "Ap_21" (some device_id)
  mBind (downloadJson env "https://sp.auth.adobe.com/o/client/register" "Registering client with Adobe"
    [("software_statement", software_statement)]) fun rres =>
  mBind (jget rres.1 "client_id") fun client_id =>
  mBind (jget rres.1 "client_secret") fun client_secret =>
  mBind (downloadJson env "https://sp.auth.adobe.com/o/client/token" "Obtaining access token"
    [("grant_type", "client_credentials"), ("client_id", client_id),
     ("client_secret", client_secret)]) fun tres =>
  mBind (jget tres.1 "access_token") fun access_token =>
  let headers := dset headers "Authorization" (some ("Bearer " ++ access_token))
  mBind (downloadJson env ("https://sp.auth.adobe.com/reggie/v1/" ++ requestor_id ++ "/regcode")
    "Obtaining registration code"
    [("requestor", requestor_id), ("deviceId", device_id), ("format", "json")]) fun gres =>
  mBind (jget gres.1 "code") fun reg_code =>
  mBind (downloadPage env (SERVICE_PROVIDER "authenticate/saml") "Downloading Provider Redirect Page"
    [("noflash", "true"), ("mso_id", msoId), ("requestor_id", requestor_id),
     ("no_iframe", "false"), ("domain_name", "adobe.com"), ("redirect_url", url),
     ("reg_code", reg_code)]) fun provider_redirect_page_res =>
  mBind (if msoId = "Verizon" then verizonFlow env provider_redirect_page_res username passText
    else if msoId = "Comcast_SSO" ∨ msoId = "Philo" ∨ msoId = "Spectrum" ∨
        msoId = "Charter_Direct" ∨ msoId = "slingtv" ∨ msoId = "Suddenlink" ∨ msoId = "Fubo" then
      env.specialDriver msoId provider_redirect_page_res username passText
    else defaultFlow env provider_redirect_page_res username passText msoId) fun _ =>
  mBind (downloadPage env (SERVICE_PROVIDER "session") "Retrieving Session"
    [("_method", "GET"), ("requestor_id", requestor_id), ("reg_code", reg_code)]) fun session =>
  if hasSub session.body "<pendingLogout" = true then
    mBind (cacheStoreM requestor_id []) fun _ => mPure (headers, none)
  else
    mBind (liftE (xml_text session.body "authnToken")) fun at0 =>
    let authn_token := unescapeHTML at0
    let requestor_info := dset requestor_info "authn_token" authn_token
    mBind (cacheStoreM requestor_id requestor_info) fun _ =>
    mPure (headers, some (authn_token, requestor_info))

/-- The media-token step: set the `ap_19`/`ap_23` headers from the
authn token and POST to `shortAuthorize`; `pendingLogout` clears the
cache and continues the outer loop (`Sum.inl`), otherwise the response
body is the final media token (`Sum.inr`) and is not cached. -/
def shortAuthStep (env : Env) (requestor_id authn_token authz_token : String)
    (headers : List (String × Option String)) :
    M (Sum (List (String × Option String)) String) :=
  mBind (liftE (xml_text authn_token "simpleSamlNameID")) fun ap19 =>
  mBind (liftE (xml_text authn_token "simpleSamlSessionIndex")) fun ap23 =>
  let headers := dset (dset headers "ap_19" (some ap19)) "ap_23" (some ap23)
  mBind (liftE (xml_text authn_token "simpleTokenAuthenticationGuid")) fun session_guid =>
  mBind (downloadPage env (SERVICE_PROVIDER "shortAuthorize") "Retrieving Media Token"
    [("authz_token", authz_token), ("requestor_id", requestor_id),
     ("session_guid", session_guid), ("hashed_guid", "false")]) fun short_authorize =>
  if hasSub short_authorize.body "<pendingLogout" = true then
    mBind (cacheStoreM requestor_id []) fun _ => mPure (Sum.inl headers)
  else mPure (Sum.inr short_authorize.body)

/-- The cached-token validity pattern used for both token kinds:
`if token and is_expired(token, field): token = None` — a truthy token
is dropped when expired (a fatal parse failure inside `is_expired`
propagates), a falsy one is kept as-is and rejected by the caller's
truthiness test. -/
def tokenCheck (env : Env) (tok0 : Option String) (field : String) : M (Option String) :=
  match tok0 with
  | some t =>
    if t ≠ "" then
      mBind (liftE (is_expired env.parseTs env.now t field)) fun e =>
      mPure (if e then none else some t)
    else mPure (some t)
  | none => mPure none

/-- The authorization-token step followed by the media-token step: a
cached unexpired authz token under `guid` is reused, otherwise the
broker `authorize` endpoint is called (with the full original
`resource` as `resource_id`), `pendingLogout` clears the cache and
continues, an `<error` response raises, and a fresh authz token is
cached under `guid`. -/
def afterLogin (env : Env) (requestor_id resource guid : String)
    (requestor_info : List (String × String)) (authn_token : String)
    (headers : List (String × Option String)) :
    M (Sum (List (String × Option String)) String) :=
  mBind (tokenCheck env (dget requestor_info guid) "simpleTokenTTL") fun authz1 =>
  mBind (if truthy authz1 = true then mPure (some (authz1.getD ""))
    else
      mBind (liftE (xml_text authn_token "simpleTokenMsoID")) fun msoField =>
      mBind (downloadPage env (SERVICE_PROVIDER "authorize") "Retrieving Authorization Token"
        [("resource_id", resource), ("requestor_id", requestor_id),
         ("authentication_token", authn_token), ("mso_id", msoField),
         ("userMeta", "1")]) fun authorize =>
      if hasSub authorize.body "<pendingLogout" = true then
        mBind (cacheStoreM requestor_id []) fun _ => mPure none
      else if hasSub authorize.body "<error" = true then
        mBind (liftE (xml_text authorize.body "details")) fun details =>
        mThrow (Err.extractor details true)
      else
        mBind (liftE (xml_text authorize.body "authzToken")) fun az0 =>
        let authz_token := unescapeHTML az0
        mBind (cacheStoreM requestor_id (dset requestor_info guid authz_token)) fun _ =>
        mPure (some authz_token)) fun step =>
  match step with
  | none => mPure (Sum.inl headers)
  | some authz_token => shortAuthStep env requestor_id authn_token authz_token headers

/-- One pass of the `for _ in range(2)` loop: load the cached record,
drop an expired authn token, either reuse it or run the
re-authentication block, then the authorization and media-token
steps.  `Sum.inl` carries the headers into the next pass after a
`pendingLogout`; `Sum.inr` is the media token. -/
def authPass (env : Env) (url requestor_id resource software_statement guid : String)
    (headers : List (String × Option String)) :
    M (Sum (List (String × Option String)) String) :=
  mBind (cacheLoadM requestor_id) fun loaded =>
  let requestor_info := loaded.getD []
  mBind (tokenCheck env (dget requestor_info "authn_token") "simpleTokenExpires") fun authn1 =>
  if truthy authn1 = true then
    afterLogin env requestor_id resource guid requestor_info (authn1.getD "") headers
  else
    mBind (loginStep env url requestor_id software_statement requestor_info headers) fun res =>
    match res.2 with
    | none => mPure (Sum.inl res.1)
    | some (authn_token, ri) => afterLogin env requestor_id resource guid ri authn_token res.1

/-- `guid = xml_text(resource, 'guid') if '<' in resource else
resource` (evaluated once, before the loop). -/
def resourceGuid (resource : String) : Except Err String :=
  if hasSub resource "<" = true then xml_text resource "guid" else Except.ok resource

/-- `_extract_mvpd_auth(url, video_id, requestor_id, resource,
software_statement)`: two passes at most; falling off the loop after a
second `pendingLogout` yields `none` (Python's implicit `None`
return), not an error. -/
def extractMvpdAuth (env : Env) (url requestor_id resource software_statement : String) :
    M (Option String) :=
  mBind (liftE (resourceGuid resource)) fun guid =>
  mBind (authPass env url requestor_id resource software_statement guid initMvpdHeaders) fun r1 =>
  match r1 with
  | Sum.inr tok => mPure (some tok)
  | Sum.inl h1 =>
    mBind (authPass env url requestor_id resource software_statement guid h1) fun r2 =>
    match r2 with
    | Sum.inr tok => mPure (some tok)
    | Sum.inl _ => mPure none

/-- Run one `_extract_mvpd_auth` call from an initial cache with an
empty trace. -/
def runAuth (env : Env) (url requestor_id resource software_statement : String)
    (cache0 : List (String × List (String × String))) : Except Err (Option String) × St :=
  extractMvpdAuth env url requestor_id resource software_statement ⟨cache0, []⟩

/-- Number of requests to a given URL in a trace. -/
def countUrl (evs : List Event) (u : String) : Nat :=
  (evs.filter fun e => match e with
    | Event.req r => r.url == u
    | Event.cacheStore _ _ => false).length

/-- An uninteresting page for oracle defaults. -/
def blankPage : Page := ⟨"", "", []⟩

/-- Network oracle of a broker whose `shortAuthorize` endpoint always
reports `pendingLogout`, with an otherwise fully functional default
provider login flow (three form pages) and session/authorize steps. -/
def netC1 (r : Request) : Page :=
  if r.url = SERVICE_PROVIDER "authenticate/saml" then
    ⟨"<form x action=\"https://mso.example.com/login\">",
      "https://sp.auth.adobe.com/adobe-services/authenticate/saml", []⟩
  else if r.url = "https://mso.example.com/login" then
    ⟨"<form x action=\"https://mso.example.com/submit\">", "https://mso.example.com/login", []⟩
  else if r.url = "https://mso.example.com/submit" then
    ⟨"<form x action=\"https://mso.example.com/done\">", "https://mso.example.com/submit", []⟩
  else if r.url = SERVICE_PROVIDER "session" then
    ⟨"<authnToken><simpleTokenMsoID>DTV</simpleTokenMsoID><simpleSamlNameID>n2</simpleSamlNameID><simpleSamlSessionIndex>s2</simpleSamlSessionIndex><simpleTokenAuthenticationGuid>g2</simpleTokenAuthenticationGuid></authnToken>",
      r.url, []⟩
  else if r.url = SERVICE_PROVIDER "authorize" then ⟨"<authzToken>AZ2</authzToken>", r.url, []⟩
  else if r.url = SERVICE_PROVIDER "shortAuthorize" then ⟨"<pendingLogout/>", r.url, []⟩
  else blankPage

/-- JSON oracle for the registration endpoints of the same broker. -/
def netJsonC1 (r : Request) : List (String × String) × Page :=
  if r.url = "https://sp.auth.adobe.com/indiv/devices" then ([("deviceId", "dev1")], blankPage)
  else if r.url = "https://sp.auth.adobe.com/o/client/register" then
    ([("client_id", "cid"), ("client_secret", "cs")], blankPage)
  else if r.url = "https://sp.auth.adobe.com/o/client/token" then
    ([("access_token", "atok")], blankPage)
  else if r.url = "https://sp.auth.adobe.com/reggie/v1/REQ/regcode" then
    ([("code", "rc")], blankPage)
  else ([], blankPage)

/-- A fully configured environment (DIRECTV profile, credentials
present) over the always-logging-out broker. -/
def envC1 : Env :=
  { net := netC1, netJson := netJsonC1, msoId := some "DTV",
    msoInfo := ⟨some "username", some "password", none⟩,
    apUsername := some "u", apPassword := some "p",
    parseTs := parseDec, now := 100, fingerprint := "fp",
    hiddenInputs := fun _ => [], specialDriver := fun _ _ _ _ => mPure () }

/-- A cached, unexpired authn token carrying all the fields the later
steps read. -/
def authnTokC1 : String :=
  "<simpleTokenExpires>9999</simpleTokenExpires><simpleSamlNameID>nm</simpleSamlNameID><simpleSamlSessionIndex>si</simpleSamlSessionIndex><simpleTokenAuthenticationGuid>ag</simpleTokenAuthenticationGuid><simpleTokenMsoID>DTV</simpleTokenMsoID>"

/-- A cached, unexpired authz token for resource guid `G`. -/
def authzTokC1 : String := "<simpleTokenTTL>9999</simpleTokenTTL>"

/-- Initial cache: requestor `REQ` holds both tokens. -/
def cacheC1 : List (String × List (String × String)) :=
  [("REQ", [("authn_token", authnTokC1), ("G", authzTokC1)])]

/-- The full run against the always-logging-out broker. -/
def outC1 : Except Err (Option String) × St :=
  runAuth envC1 "https://t.example/v" "REQ" "G" "SS" cacheC1

set_option maxRecDepth 10000 in
/-- Claim C1 (code-bug demonstration): with a `pendingLogout` on the
first pass (at the media-token step) the cache is cleared and exactly
one more full pass runs, but a second `pendingLogout` on the retry
makes `_extract_mvpd_auth` fall off the `for _ in range(2)` loop and
return Python's implicit `None`: the run ends with `Except.ok none` —
an absent result and no explicit error — after exactly two
`shortAuthorize` requests and two cache-clearing stores. -/
theorem C1_second_pendingLogout_returns_absent :
    outC1.1 = Except.ok none ∧
    countUrl outC1.2.events (SERVICE_PROVIDER "shortAuthorize") = 2 ∧
    (outC1.2.events.filter fun e => e == Event.cacheStore "REQ" []).length = 2 := by
  exact ⟨by decide, by decide, by decide⟩

theorem mBind_mPure {α β : Type} (a : α) (f : α → M β) : mBind (mPure a) f = f a := rfl

theorem mBind_mThrow {α β : Type} (e : Err) (f : α → M β) : mBind (mThrow e) f = mThrow e := rfl

theorem mBind_liftE_ok {α β : Type} (a : α) (f : α → M β) : mBind (liftE (Except.ok a)) f = f a := rfl

theorem mBind_liftE_error {α β : Type} (e : Err) (f : α → M β) :
    mBind (liftE (Except.error e)) f = mThrow e := rfl

/-- Claim C2 (counterexample): a token that carries no expiry field at
all is not treated as never-expired — the check fails with the fatal
missing-field error of `_search_regex` instead of returning
not-expired. -/
theorem C2_missing_expiry_field_fails :
    is_expired parseDec 1000 "opaque-token-without-expiry" "simpleTokenExpires" =
      Except.error (Err.regexNotFound "simpleTokenExpires") := by
  decide

/-- Claim C2 (amended): for every timestamp parser, current time,
token and expiry field name — when the expiry field is present and its
text parses to a nonzero timestamp `t`, the token is classified
expired iff `t` equals or precedes now; a present field that fails to
parse, or parses to zero, is treated as not-expired; a missing expiry
field propagates the fatal missing-field error. -/
theorem C2_expiry_classification (pt : String → Option Int) (now : Int) (tok ele : String) :
    (∀ s, xml_text tok ele = Except.ok s →
      ((∀ t, pt (subGmt s) = some t → t ≠ 0 →
          (is_expired pt now tok ele = Except.ok true ↔ t ≤ now)) ∧
        (pt (subGmt s) = none → is_expired pt now tok ele = Except.ok false) ∧
        (pt (subGmt s) = some 0 → is_expired pt now tok ele = Except.ok false))) ∧
    (∀ e, xml_text tok ele = Except.error e → is_expired pt now tok ele = Except.error e) := by
  constructor
  · intro s hs
    refine ⟨?_, ?_, ?_⟩
    · intro t hpt hne
      simp [is_expired, hs, hpt, hne]
    · intro hpt
      simp [is_expired, hs, hpt]
    · intro hpt
      simp [is_expired, hs, hpt]
  · intro e he
    simp [is_expired, he]

/-- Witness for C2: a token expiring at 500 is expired at time 1000. -/
theorem C2_expiry_classification_witness :
    is_expired parseDec 1000 "<simpleTokenExpires>500</simpleTokenExpires>" "simpleTokenExpires" =
      Except.ok true :=
  (((C2_expiry_classification parseDec 1000 _ _).1 "500" (by decide)).1 500 (by decide)
    (by decide)).mpr (by decide)

/-- Claim C3: under `validate_url=True` (the credential-carrying
submission), when the profile declares a nonempty `login_hostname` and
the resolved form action's host differs from it, `post_form` fails
with the hostname-mismatch `ExtractorError` and the state — in
particular the request trace — is unchanged: no HTTP request carrying
the credentials is ever issued. -/
theorem C3_hostname_mismatch_aborts (env : Env) (page : Page) (note : String)
    (data : List (String × String)) (st : St) (hexp a : String)
    (hhost : env.msoInfo.login_hostname = some hexp) (hne : hexp ≠ "")
    (hact : findFormAction page.body.toList = some a)
    (hmm : some hexp ≠ hostnameOf (urlparse (resolvedActionUrl page a))) :
    post_form env page note data true st =
      (Except.error (Err.extractor
        (hostnameMismatchMsg (some hexp)
          (hostnameOf (urlparse (resolvedActionUrl page a)))) false), st) := by
  have hval : validateActionUrl env.msoInfo (resolvedActionUrl page a) =
      Except.error (Err.extractor
        (hostnameMismatchMsg (some hexp)
          (hostnameOf (urlparse (resolvedActionUrl page a)))) false) := by
    simp only [validateActionUrl, hhost]
    rw [if_pos ⟨by simp [truthy, hne], hmm⟩]
  simp only [post_form, hact, mBind_mPure, if_true, hval, mBind_liftE_error]
  rfl

/-- A profile declaring `login_hostname = "login.example.com"` for the
C3 witness. -/
def envC3 : Env :=
  { net := fun _ => blankPage, netJson := fun _ => ([], blankPage),
    msoId := some "Comcast_SSO",
    msoInfo := ⟨some "user", some "passwd", some "login.example.com"⟩,
    apUsername := some "u", apPassword := some "p",
    parseTs := parseDec, now := 0, fingerprint := "f",
    hiddenInputs := fun _ => [], specialDriver := fun _ _ _ _ => mPure () }

/-- Witness for C3: an action resolving to `evil.example.com` aborts
with the mismatch error and an empty trace. -/
theorem C3_hostname_mismatch_aborts_witness :
    post_form envC3
      ⟨"<form x action=\"https://evil.example.com/steal\">", "https://login.example.com/f", []⟩
      "Logging in" [("user", "u"), ("passwd", "p")] true ⟨[], []⟩ =
      (Except.error (Err.extractor
        (hostnameMismatchMsg (some "login.example.com") (some "evil.example.com")) false),
       ⟨[], []⟩) := by
  have h := C3_hostname_mismatch_aborts envC3
    ⟨"<form x action=\"https://evil.example.com/steal\">", "https://login.example.com/f", []⟩
    "Logging in" [("user", "u"), ("passwd", "p")] ⟨[], []⟩ "login.example.com"
    "https://evil.example.com/steal" rfl (by decide) (by decide) (by decide)
  exact h

/-- Claim C4: under `validate_url=True`, when the hostname constraint
does not reject (absent, empty, or matching `login_hostname`) and the
resolved action's scheme is not `https`, `post_form` issues its single
POST to the scheme-upgraded URL — the recorded request carries the
upgraded URL, not the original one. -/
theorem C4_insecure_scheme_upgraded (env : Env) (page : Page) (note : String)
    (data : List (String × String)) (st : St) (a : String)
    (hact : findFormAction page.body.toList = some a)
    (hok : ¬(truthy env.msoInfo.login_hostname = true ∧
        env.msoInfo.login_hostname ≠ hostnameOf (urlparse (resolvedActionUrl page a))))
    (hsch : (urlparse (resolvedActionUrl page a)).scheme ≠ "https") :
    post_form env page note data true st =
      (Except.ok (env.net
        ⟨urlunparse { urlparse (resolvedActionUrl page a) with scheme := "https" }, note,
          dictUpdate (env.hiddenInputs page.body) data⟩),
       { st with events := st.events ++
          [Event.req ⟨urlunparse { urlparse (resolvedActionUrl page a) with scheme := "https" },
            note, dictUpdate (env.hiddenInputs page.body) data⟩] }) := by
  have hval : validateActionUrl env.msoInfo (resolvedActionUrl page a) =
      Except.ok (urlunparse { urlparse (resolvedActionUrl page a) with scheme := "https" }) := by
    simp only [validateActionUrl]
    rw [if_neg hok, if_pos hsch]
  simp only [post_form, hact, mBind_mPure, if_true, hval, mBind_liftE_ok]
  rfl

/-- A profile with no hostname constraint and one hidden input, for
the C4 witness. -/
def envC4 : Env :=
  { net := fun _ => blankPage, netJson := fun _ => ([], blankPage),
    msoId := some "DTV", msoInfo := ⟨some "user", some "passwd", none⟩,
    apUsername := some "u", apPassword := some "p",
    parseTs := parseDec, now := 0, fingerprint := "f",
    hiddenInputs := fun _ => [("h1", "v1")], specialDriver := fun _ _ _ _ => mPure () }

/-- Witness for C4: an `http://` action is POSTed to as `https://`. -/
theorem C4_insecure_scheme_upgraded_witness :
    post_form envC4 ⟨"<form x action=\"http://login.example.com/l\">", "https://a.example/f", []⟩
      "Logging in" [("user", "u")] true ⟨[], []⟩ =
      (Except.ok (envC4.net ⟨"https://login.example.com/l", "Logging in",
        [("h1", "v1"), ("user", "u")]⟩),
       ⟨[], [Event.req ⟨"https://login.example.com/l", "Logging in",
        [("h1", "v1"), ("user", "u")]⟩]⟩) := by
  have h := C4_insecure_scheme_upgraded envC4
    ⟨"<form x action=\"http://login.example.com/l\">", "https://a.example/f", []⟩
    "Logging in" [("user", "u")] ⟨[], []⟩ "http://login.example.com/l"
    (by decide) (by decide) (by decide)
  exact h

/-- Claim C5: `extract_redirect_url` returns the meta-refresh `URL=`
target resolved (after entity-unescaping) against the given base; on a
page with no meta-refresh tag it returns `none` without failing when
not fatal, and fails with the missing-element error when fatal.  The
last conjunct checks the spec's concrete example page. -/
theorem C5_meta_redirect (html base : String) :
    (∀ r, findMetaRefresh html = some r →
        extract_redirect_url html (some base) false =
          Except.ok (some (urljoin base (unescapeHTML r))) ∧
        extract_redirect_url html (some base) true =
          Except.ok (some (urljoin base (unescapeHTML r)))) ∧
    (findMetaRefresh html = none →
        extract_redirect_url html (some base) false = Except.ok none ∧
        extract_redirect_url html (some base) true =
          Except.error (Err.regexNotFound "meta refresh redirect")) ∧
    extract_redirect_url "<meta http-equiv=\"refresh\" content=\"0;URL=/next\">"
      (some "https://h.example.com/a/b") false =
      Except.ok (some "https://h.example.com/next") := by
  refine ⟨?_, ?_, by decide⟩
  · intro r hr
    constructor <;> simp [extract_redirect_url, hr]
  · intro hn
    constructor <;> simp [extract_redirect_url, hn]

/-- Witness for C5: a page without any meta-refresh tag yields `none`
when not required and the fatal missing-element error when required. -/
theorem C5_meta_redirect_witness :
    extract_redirect_url "no refresh here" (some "https://h.example.com/") false =
      Except.ok none ∧
    extract_redirect_url "no refresh here" (some "https://h.example.com/") true =
      Except.error (Err.regexNotFound "meta refresh redirect") :=
  (C5_meta_redirect "no refresh here" "https://h.example.com/").2.1 (by decide)

/-- Claim C10: when `extract_redirect_url` is called without a base
URL, a found meta-refresh target is returned exactly as captured from
the markup — entity-unescaping and resolution are applied only when a
base URL is supplied. -/
theorem C10_no_base_returns_raw_capture (html r : String) (fatal : Bool)
    (h : findMetaRefresh html = some r) :
    extract_redirect_url html none fatal = Except.ok (some r) ∧
    (∀ base, extract_redirect_url html (some base) fatal =
        Except.ok (some (urljoin base (unescapeHTML r)))) := by
  constructor
  · simp [extract_redirect_url, h]
  · intro base
    simp [extract_redirect_url, h]

/-- Witness for C10: with no base URL the entity-escaped target
`/a&amp;b` is returned verbatim, while a base URL triggers the
unescaped resolution. -/
theorem C10_no_base_returns_raw_capture_witness :
    extract_redirect_url "<meta http-equiv=\"refresh\" content=\"0;URL=/a&amp;b\">" none false =
      Except.ok (some "/a&amp;b") ∧
    extract_redirect_url "<meta http-equiv=\"refresh\" content=\"0;URL=/a&amp;b\">"
      (some "https://h.example.com/x") false = Except.ok (some "https://h.example.com/a&b") := by
  have h := C10_no_base_returns_raw_capture
    "<meta http-equiv=\"refresh\" content=\"0;URL=/a&amp;b\">" "/a&amp;b" false (by decide)
  exact ⟨h.1, h.2 "https://h.example.com/x"⟩

theorem mBind_run_ok {α β : Type} (x : M α) (f : α → M β) (s s1 : St) (a : α)
    (h : x s = (Except.ok a, s1)) : mBind x f s = f a s1 := by
  unfold mBind; rw [h]

theorem mBind_run_error {α β : Type} (x : M α) (f : α → M β) (s s1 : St) (e : Err)
    (h : x s = (Except.error e, s1)) : mBind x f s = (Except.error e, s1) := by
  unfold mBind; rw [h]

theorem tokenCheck_valid (env : Env) (t field : String) (hne : t ≠ "")
    (hexp : is_expired env.parseTs env.now t field = Except.ok false) :
    tokenCheck env (some t) field = mPure (some t) := by
  simp [tokenCheck, hne, hexp, mBind_liftE_ok]

theorem tokenCheck_none (env : Env) (field : String) :
    tokenCheck env none field = mPure none := rfl

theorem truthy_some {t : String} (hne : t ≠ "") : truthy (some t) = true := by
  simp [truthy, hne]

/-- Claim C7: with no cached record for the requestor id, the exchange
fails with the user-actionable provider-configuration error before any
network request or cache write — when no provider id is configured,
and likewise when a provider is configured but the username or the
password is missing.  The final state equals the initial one: the
event trace stays empty. -/
theorem C7_config_required (env : Env) (u rid res ss : String)
    (cache0 : List (String × List (String × String)))
    (hcache : dget cache0 rid = none) (hres : hasSub res "<" = false) :
    (truthy env.msoId = false →
      runAuth env u rid res ss cache0 = (Except.error mvpdRequiredErr, ⟨cache0, []⟩)) ∧
    (truthy env.msoId = true →
      truthy env.apUsername = false ∨ truthy env.apPassword = false →
      runAuth env u rid res ss cache0 = (Except.error mvpdRequiredErr, ⟨cache0, []⟩)) := by
  have hg : resourceGuid res = Except.ok res := by simp [resourceGuid, hres]
  have hload : cacheLoadM rid ⟨cache0, []⟩ = (Except.ok none, (⟨cache0, []⟩ : St)) := by
    simp [cacheLoadM, hcache]
  have hcommon : loginStep env u rid ss [] initMvpdHeaders ⟨cache0, []⟩ =
      (Except.error mvpdRequiredErr, ⟨cache0, []⟩) →
      runAuth env u rid res ss cache0 = (Except.error mvpdRequiredErr, ⟨cache0, []⟩) := by
    intro hlogin
    unfold runAuth extractMvpdAuth
    rw [hg, mBind_liftE_ok]
    have hpass : authPass env u rid res ss res initMvpdHeaders ⟨cache0, []⟩ =
        (Except.error mvpdRequiredErr, ⟨cache0, []⟩) := by
      unfold authPass
      rw [mBind_run_ok _ _ _ _ _ hload]
      simp only [Option.getD_none]
      rw [show dget ([] : List (String × String)) "authn_token" = none from rfl]
      rw [tokenCheck_none, mBind_mPure]
      rw [if_neg (by simp [truthy])]
      rw [mBind_run_error _ _ _ _ _ hlogin]
    rw [mBind_run_error _ _ _ _ _ hpass]
  constructor
  · intro hmso
    refine hcommon ?_
    unfold loginStep
    rw [if_pos hmso, mBind_mThrow]
    rfl
  · intro hmso hcred
    refine hcommon ?_
    unfold loginStep
    rw [if_neg (by simp [hmso]), mBind_mPure, if_pos hcred, mBind_mThrow]
    rfl

/-- An environment with no provider selected and no credentials. -/
def envC7 : Env :=
  { net := fun _ => blankPage, netJson := fun _ => ([], blankPage),
    msoId := none, msoInfo := ⟨none, none, none⟩,
    apUsername := none, apPassword := none,
    parseTs := parseDec, now := 0, fingerprint := "f",
    hiddenInputs := fun _ => [], specialDriver := fun _ _ _ _ => mPure () }

/-- Witness for C7: an empty cache and no `--ap-mso` yield the
configuration error with an empty trace. -/
theorem C7_config_required_witness :
    runAuth envC7 "https://t.example/v" "REQ" "G" "SS" [] =
      (Except.error mvpdRequiredErr, ⟨[], []⟩) :=
  (C7_config_required envC7 "https://t.example/v" "REQ" "G" "SS" [] (by decide) (by decide)).1
    (by decide)

/-- Claim C6: when the cached record holds an unexpired authn token
and an unexpired authz token under the requested resource guid, the
whole exchange performs exactly one request — the `shortAuthorize`
media-token call — whose body it returns; no login-driver steps, no
session or authorize requests, and no cache write happen (the cache
and the remainder of the trace are unchanged), so the media token is
never cached. -/
theorem C6_cached_tokens_direct_media (env : Env) (u rid resource ss : String)
    (cache0 : List (String × List (String × String)))
    (rec0 : List (String × String)) (atk azk n1 n2 n3 : String) (P : Page)
    (hres : hasSub resource "<" = false)
    (hcache : dget cache0 rid = some rec0)
    (hat : dget rec0 "authn_token" = some atk) (hatne : atk ≠ "")
    (hatexp : is_expired env.parseTs env.now atk "simpleTokenExpires" = Except.ok false)
    (haz : dget rec0 resource = some azk) (hazne : azk ≠ "")
    (hazexp : is_expired env.parseTs env.now azk "simpleTokenTTL" = Except.ok false)
    (h19 : xml_text atk "simpleSamlNameID" = Except.ok n1)
    (h23 : xml_text atk "simpleSamlSessionIndex" = Except.ok n2)
    (hsg : xml_text atk "simpleTokenAuthenticationGuid" = Except.ok n3)
    (hnet : env.net ⟨SERVICE_PROVIDER "shortAuthorize", "Retrieving Media Token",
      [("authz_token", azk), ("requestor_id", rid), ("session_guid", n3),
       ("hashed_guid", "false")]⟩ = P)
    (hnp : hasSub P.body "<pendingLogout" = false) :
    runAuth env u rid resource ss cache0 =
      (Except.ok (some P.body),
       ⟨cache0, [Event.req ⟨SERVICE_PROVIDER "shortAuthorize", "Retrieving Media Token",
         [("authz_token", azk), ("requestor_id", rid), ("session_guid", n3),
          ("hashed_guid", "false")]⟩]⟩) := by
  have hg : resourceGuid resource = Except.ok resource := by simp [resourceGuid, hres]
  have hload : cacheLoadM rid ⟨cache0, []⟩ = (Except.ok (some rec0), (⟨cache0, []⟩ : St)) := by
    simp [cacheLoadM, hcache]
  have hshort : shortAuthStep env rid atk azk
      (dset (dset initMvpdHeaders "ap_19" (some n1)) "ap_23" (some n2)) ⟨cache0, []⟩ =
      (Except.ok (Sum.inr P.body),
       (⟨cache0, [Event.req ⟨SERVICE_PROVIDER "shortAuthorize", "Retrieving Media Token",
         [("authz_token", azk), ("requestor_id", rid), ("session_guid", n3),
          ("hashed_guid", "false")]⟩]⟩ : St)) := by
    unfold shortAuthStep
    rw [h19, mBind_liftE_ok, h23, mBind_liftE_ok, hsg, mBind_liftE_ok]
    have hdl : downloadPage env (SERVICE_PROVIDER "shortAuthorize") "Retrieving Media Token"
        [("authz_token", azk), ("requestor_id", rid), ("session_guid", n3),
         ("hashed_guid", "false")] ⟨cache0, []⟩ =
        (Except.ok (env.net ⟨SERVICE_PROVIDER "shortAuthorize", "Retrieving Media Token",
          [("authz_token", azk), ("requestor_id", rid), ("session_guid", n3),
           ("hashed_guid", "false")]⟩),
         (⟨cache0, [Event.req ⟨SERVICE_PROVIDER "shortAuthorize", "Retrieving Media Token",
           [("authz_token", azk), ("requestor_id", rid), ("session_guid", n3),
            ("hashed_guid", "false")]⟩]⟩ : St)) := rfl
    rw [mBind_run_ok _ _ _ _ _ hdl, hnet]
    rw [if_neg (by simp [hnp])]
    rfl
  have hafter : afterLogin env rid resource resource rec0 atk initMvpdHeaders ⟨cache0, []⟩ =
      (Except.ok (Sum.inr P.body),
       (⟨cache0, [Event.req ⟨SERVICE_PROVIDER "shortAuthorize", "Retrieving Media Token",
         [("authz_token", azk), ("requestor_id", rid), ("session_guid", n3),
          ("hashed_guid", "false")]⟩]⟩ : St)) := by
    unfold afterLogin
    rw [haz, tokenCheck_valid env azk _ hazne hazexp, mBind_mPure]
    rw [if_pos (truthy_some hazne)]
    simp only [Option.getD_some, mBind_mPure]
    exact hshort
  have hpass : authPass env u rid resource ss resource initMvpdHeaders ⟨cache0, []⟩ =
      (Except.ok (Sum.inr P.body),
       (⟨cache0, [Event.req ⟨SERVICE_PROVIDER "shortAuthorize", "Retrieving Media Token",
         [("authz_token", azk), ("requestor_id", rid), ("session_guid", n3),
          ("hashed_guid", "false")]⟩]⟩ : St)) := by
    unfold authPass
    rw [mBind_run_ok _ _ _ _ _ hload]
    simp only [Option.getD_some]
    rw [hat, tokenCheck_valid env atk _ hatne hatexp, mBind_mPure]
    rw [if_pos (truthy_some hatne)]
    simp only [Option.getD_some]
    exact hafter
  unfold runAuth extractMvpdAuth
  rw [hg, mBind_liftE_ok, mBind_run_ok _ _ _ _ _ hpass]
  rfl

/-- A broker oracle that answers the media-token request with a plain
token body. -/
def envC6 : Env :=
  { net := fun r =>
      if r.url = SERVICE_PROVIDER "shortAuthorize" then ⟨"MEDIATOK", r.url, []⟩ else blankPage,
    netJson := fun _ => ([], blankPage), msoId := some "DTV",
    msoInfo := ⟨some "username", some "password", none⟩,
    apUsername := some "u", apPassword := some "p",
    parseTs := parseDec, now := 100, fingerprint := "fp",
    hiddenInputs := fun _ => [], specialDriver := fun _ _ _ _ => mPure () }

set_option maxRecDepth 10000 in
/-- Witness for C6: both tokens cached and fresh — the run returns the
media token after the single `shortAuthorize` request. -/
theorem C6_cached_tokens_direct_media_witness :
    runAuth envC6 "https://t.example/v" "REQ" "G" "SS"
      [("REQ", [("authn_token", authnTokC1), ("G", authzTokC1)])] =
      (Except.ok (some "MEDIATOK"),
       ⟨[("REQ", [("authn_token", authnTokC1), ("G", authzTokC1)])],
        [Event.req ⟨SERVICE_PROVIDER "shortAuthorize", "Retrieving Media Token",
          [("authz_token", authzTokC1), ("requestor_id", "REQ"), ("session_guid", "ag"),
           ("hashed_guid", "false")]⟩]⟩) := by
  have h := C6_cached_tokens_direct_media envC6 "https://t.example/v" "REQ" "G" "SS"
    [("REQ", [("authn_token", authnTokC1), ("G", authzTokC1)])]
    [("authn_token", authnTokC1), ("G", authzTokC1)] authnTokC1 authzTokC1 "nm" "si" "ag"
    ⟨"MEDIATOK", SERVICE_PROVIDER "shortAuthorize", []⟩
    (by decide) (by decide) (by decide) (by decide) (by decide) (by decide) (by decide)
    (by decide) (by decide) (by decide) (by decide) (by decide) (by decide)
  exact h

theorem mBind_assoc {α β γ : Type} (x : M α) (f : α → M β) (g : β → M γ) :
    mBind (mBind x f) g = mBind x fun a => mBind (f a) g := by
  funext s
  unfold mBind
  rcases hx : x s with ⟨r, s1⟩
  cases r <;> rfl

/-- Claim C8: the cache key for the authorization token is the
`<guid>` element's text when the resource descriptor is an XML
fragment (contains `<`) and the raw string itself otherwise (first two
conjuncts); and in a run that reaches the authorize step, the broker
request carries the full original descriptor unchanged as
`resource_id` while the freshly obtained authz token is stored in the
cache record under the unwrapped `guid` key (third conjunct). -/
theorem C8_resource_guid_and_authorize (env : Env) (u rid resource ss g : String)
    (cache0 : List (String × List (String × String)))
    (rec0 : List (String × String)) (atk m az0 n1 n2 n3 : String) (A P : Page)
    (hg : resourceGuid resource = Except.ok g)
    (hcache : dget cache0 rid = some rec0)
    (hat : dget rec0 "authn_token" = some atk) (hatne : atk ≠ "")
    (hatexp : is_expired env.parseTs env.now atk "simpleTokenExpires" = Except.ok false)
    (haz : dget rec0 g = none)
    (hmsoF : xml_text atk "simpleTokenMsoID" = Except.ok m)
    (hnetA : env.net ⟨SERVICE_PROVIDER "authorize", "Retrieving Authorization Token",
      [("resource_id", resource), ("requestor_id", rid), ("authentication_token", atk),
       ("mso_id", m), ("userMeta", "1")]⟩ = A)
    (hnpA : hasSub A.body "<pendingLogout" = false)
    (herrA : hasSub A.body "<error" = false)
    (hazx : xml_text A.body "authzToken" = Except.ok az0)
    (h19 : xml_text atk "simpleSamlNameID" = Except.ok n1)
    (h23 : xml_text atk "simpleSamlSessionIndex" = Except.ok n2)
    (hsg : xml_text atk "simpleTokenAuthenticationGuid" = Except.ok n3)
    (hnetS : env.net ⟨SERVICE_PROVIDER "shortAuthorize", "Retrieving Media Token",
      [("authz_token", unescapeHTML az0), ("requestor_id", rid), ("session_guid", n3),
       ("hashed_guid", "false")]⟩ = P)
    (hnpS : hasSub P.body "<pendingLogout" = false) :
    (hasSub resource "<" = true → resourceGuid resource = xml_text resource "guid") ∧
    (hasSub resource "<" = false → resourceGuid resource = Except.ok resource) ∧
    runAuth env u rid resource ss cache0 =
      (Except.ok (some P.body),
       ⟨dset cache0 rid (dset rec0 g (unescapeHTML az0)),
        [Event.req ⟨SERVICE_PROVIDER "authorize", "Retrieving Authorization Token",
          [("resource_id", resource), ("requestor_id", rid), ("authentication_token", atk),
           ("mso_id", m), ("userMeta", "1")]⟩,
         Event.cacheStore rid (dset rec0 g (unescapeHTML az0)),
         Event.req ⟨SERVICE_PROVIDER "shortAuthorize", "Retrieving Media Token",
          [("authz_token", unescapeHTML az0), ("requestor_id", rid), ("session_guid", n3),
           ("hashed_guid", "false")]⟩]⟩) := by
  refine ⟨fun h => by simp [resourceGuid, h], fun h => by simp [resourceGuid, h], ?_⟩
  have hload : cacheLoadM rid ⟨cache0, []⟩ = (Except.ok (some rec0), (⟨cache0, []⟩ : St)) := by
    simp [cacheLoadM, hcache]
  have hshort : shortAuthStep env rid atk (unescapeHTML az0)
      (dset (dset initMvpdHeaders "ap_19" (some n1)) "ap_23" (some n2))
      ⟨dset cache0 rid (dset rec0 g (unescapeHTML az0)),
       [Event.req ⟨SERVICE_PROVIDER "authorize", "Retrieving Authorization Token",
          [("resource_id", resource), ("requestor_id", rid), ("authentication_token", atk),
           ("mso_id", m), ("userMeta", "1")]⟩,
        Event.cacheStore rid (dset rec0 g (unescapeHTML az0))]⟩ =
      (Except.ok (Sum.inr P.body),
       (⟨dset cache0 rid (dset rec0 g (unescapeHTML az0)),
        [Event.req ⟨SERVICE_PROVIDER "authorize", "Retrieving Authorization Token",
          [("resource_id", resource), ("requestor_id", rid), ("authentication_token", atk),
           ("mso_id", m), ("userMeta", "1")]⟩,
         Event.cacheStore rid (dset rec0 g (unescapeHTML az0)),
         Event.req ⟨SERVICE_PROVIDER "shortAuthorize", "Retrieving Media Token",
          [("authz_token", unescapeHTML az0), ("requestor_id", rid), ("session_guid", n3),
           ("hashed_guid", "false")]⟩]⟩ : St)) := by
    unfold shortAuthStep
    rw [h19, mBind_liftE_ok, h23, mBind_liftE_ok, hsg, mBind_liftE_ok]
    have hdlS : downloadPage env (SERVICE_PROVIDER "shortAuthorize") "Retrieving Media Token"
        [("authz_token", unescapeHTML az0), ("requestor_id", rid), ("session_guid", n3),
         ("hashed_guid", "false")]
        ⟨dset cache0 rid (dset rec0 g (unescapeHTML az0)),
         [Event.req ⟨SERVICE_PROVIDER "authorize", "Retrieving Authorization Token",
            [("resource_id", resource), ("requestor_id", rid), ("authentication_token", atk),
             ("mso_id", m), ("userMeta", "1")]⟩,
          Event.cacheStore rid (dset rec0 g (unescapeHTML az0))]⟩ =
        (Except.ok (env.net ⟨SERVICE_PROVIDER "shortAuthorize", "Retrieving Media Token",
          [("authz_token", unescapeHTML az0), ("requestor_id", rid), ("session_guid", n3),
           ("hashed_guid", "false")]⟩),
         (⟨dset cache0 rid (dset rec0 g (unescapeHTML az0)),
          [Event.req ⟨SERVICE_PROVIDER "authorize", "Retrieving Authorization Token",
             [("resource_id", resource), ("requestor_id", rid), ("authentication_token", atk),
              ("mso_id", m), ("userMeta", "1")]⟩,
           Event.cacheStore rid (dset rec0 g (unescapeHTML az0)),
           Event.req ⟨SERVICE_PROVIDER "shortAuthorize", "Retrieving Media Token",
             [("authz_token", unescapeHTML az0), ("requestor_id", rid), ("session_guid", n3),
              ("hashed_guid", "false")]⟩]⟩ : St)) := rfl
    rw [mBind_run_ok _ _ _ _ _ hdlS, hnetS]
    rw [if_neg (by simp [hnpS])]
    rfl
  have hafter : afterLogin env rid resource g rec0 atk initMvpdHeaders ⟨cache0, []⟩ =
      (Except.ok (Sum.inr P.body),
       (⟨dset cache0 rid (dset rec0 g (unescapeHTML az0)),
        [Event.req ⟨SERVICE_PROVIDER "authorize", "Retrieving Authorization Token",
          [("resource_id", resource), ("requestor_id", rid), ("authentication_token", atk),
           ("mso_id", m), ("userMeta", "1")]⟩,
         Event.cacheStore rid (dset rec0 g (unescapeHTML az0)),
         Event.req ⟨SERVICE_PROVIDER "shortAuthorize", "Retrieving Media Token",
          [("authz_token", unescapeHTML az0), ("requestor_id", rid), ("session_guid", n3),
           ("hashed_guid", "false")]⟩]⟩ : St)) := by
    unfold afterLogin
    rw [haz, tokenCheck_none, mBind_mPure]
    rw [if_neg (by simp [truthy])]
    simp only [mBind_assoc]
    rw [hmsoF, mBind_liftE_ok]
    have hdlA : downloadPage env (SERVICE_PROVIDER "authorize") "Retrieving Authorization Token"
        [("resource_id", resource), ("requestor_id", rid), ("authentication_token", atk),
         ("mso_id", m), ("userMeta", "1")] ⟨cache0, []⟩ =
        (Except.ok (env.net ⟨SERVICE_PROVIDER "authorize", "Retrieving Authorization Token",
          [("resource_id", resource), ("requestor_id", rid), ("authentication_token", atk),
           ("mso_id", m), ("userMeta", "1")]⟩),
         (⟨cache0, [Event.req ⟨SERVICE_PROVIDER "authorize", "Retrieving Authorization Token",
           [("resource_id", resource), ("requestor_id", rid), ("authentication_token", atk),
            ("mso_id", m), ("userMeta", "1")]⟩]⟩ : St)) := rfl
    rw [mBind_run_ok _ _ _ _ _ hdlA, hnetA]
    rw [if_neg (by simp [hnpA]), if_neg (by simp [herrA])]
    rw [hazx, mBind_liftE_ok, mBind_assoc]
    have hcs : cacheStoreM rid (dset rec0 g (unescapeHTML az0))
        ⟨cache0, [Event.req ⟨SERVICE_PROVIDER "authorize", "Retrieving Authorization Token",
          [("resource_id", resource), ("requestor_id", rid), ("authentication_token", atk),
           ("mso_id", m), ("userMeta", "1")]⟩]⟩ =
        (Except.ok (),
         (⟨dset cache0 rid (dset rec0 g (unescapeHTML az0)),
          [Event.req ⟨SERVICE_PROVIDER "authorize", "Retrieving Authorization Token",
             [("resource_id", resource), ("requestor_id", rid), ("authentication_token", atk),
              ("mso_id", m), ("userMeta", "1")]⟩,
           Event.cacheStore rid (dset rec0 g (unescapeHTML az0))]⟩ : St)) := rfl
    rw [mBind_run_ok _ _ _ _ _ hcs]
    rw [mBind_mPure]
    exact hshort
  have hpass : authPass env u rid resource ss g initMvpdHeaders ⟨cache0, []⟩ =
      (Except.ok (Sum.inr P.body),
       (⟨dset cache0 rid (dset rec0 g (unescapeHTML az0)),
        [Event.req ⟨SERVICE_PROVIDER "authorize", "Retrieving Authorization Token",
          [("resource_id", resource), ("requestor_id", rid), ("authentication_token", atk),
           ("mso_id", m), ("userMeta", "1")]⟩,
         Event.cacheStore rid (dset rec0 g (unescapeHTML az0)),
         Event.req ⟨SERVICE_PROVIDER "shortAuthorize", "Retrieving Media Token",
          [("authz_token", unescapeHTML az0), ("requestor_id", rid), ("session_guid", n3),
           ("hashed_guid", "false")]⟩]⟩ : St)) := by
    unfold authPass
    rw [mBind_run_ok _ _ _ _ _ hload]
    simp only [Option.getD_some]
    rw [hat, tokenCheck_valid env atk _ hatne hatexp, mBind_mPure]
    rw [if_pos (truthy_some hatne)]
    simp only [Option.getD_some]
    exact hafter
  unfold runAuth extractMvpdAuth
  rw [hg, mBind_liftE_ok, mBind_run_ok _ _ _ _ _ hpass]
  rfl


/-- A broker oracle answering `authorize` with an entity-escaped
authz token and `shortAuthorize` with a media token. -/
def envC8 : Env :=
  { net := fun r =>
      if r.url = SERVICE_PROVIDER "authorize" then
        ⟨"<authzToken>AZ&amp;X</authzToken>", r.url, []⟩
      else if r.url = SERVICE_PROVIDER "shortAuthorize" then ⟨"MEDIATOK2", r.url, []⟩
      else blankPage,
    netJson := fun _ => ([], blankPage), msoId := some "DTV",
    msoInfo := ⟨some "username", some "password", none⟩,
    apUsername := some "u", apPassword := some "p",
    parseTs := parseDec, now := 100, fingerprint := "fp",
    hiddenInputs := fun _ => [], specialDriver := fun _ _ _ _ => mPure () }

set_option maxRecDepth 100000 in
/-- Witness for C8: an XML resource descriptor with `<guid>G1</guid>`
is sent whole as `resource_id` and its authz token is cached under
`G1`. -/
theorem C8_resource_guid_and_authorize_witness :
    runAuth envC8 "https://t.example/v" "REQ" "<rss><guid>G1</guid></rss>" "SS"
      [("REQ", [("authn_token", authnTokC1)])] =
      (Except.ok (some "MEDIATOK2"),
       ⟨[("REQ", [("authn_token", authnTokC1), ("G1", "AZ&X")])],
        [Event.req ⟨SERVICE_PROVIDER "authorize", "Retrieving Authorization Token",
          [("resource_id", "<rss><guid>G1</guid></rss>"), ("requestor_id", "REQ"),
           ("authentication_token", authnTokC1), ("mso_id", "DTV"), ("userMeta", "1")]⟩,
         Event.cacheStore "REQ" [("authn_token", authnTokC1), ("G1", "AZ&X")],
         Event.req ⟨SERVICE_PROVIDER "shortAuthorize", "Retrieving Media Token",
          [("authz_token", "AZ&X"), ("requestor_id", "REQ"), ("session_guid", "ag"),
           ("hashed_guid", "false")]⟩]⟩) := by
  have h := (C8_resource_guid_and_authorize envC8 "https://t.example/v" "REQ"
    "<rss><guid>G1</guid></rss>" "SS" "G1"
    [("REQ", [("authn_token", authnTokC1)])] [("authn_token", authnTokC1)]
    authnTokC1 "DTV" "AZ&amp;X" "nm" "si" "ag"
    ⟨"<authzToken>AZ&amp;X</authzToken>", SERVICE_PROVIDER "authorize", []⟩
    ⟨"MEDIATOK2", SERVICE_PROVIDER "shortAuthorize", []⟩
    (by decide) (by decide) (by decide) (by decide) (by decide) (by decide) (by decide)
    (by decide) (by decide) (by decide) (by decide) (by decide) (by decide) (by decide)
    (by decide) (by decide)).2.2
  exact h

theorem mgetField_some {v k : String} : mgetField (some v) k = mPure v := rfl

/-- Claim C9: in the Verizon login driver — the one driver whose
provider defines an explicit "Please try again." incorrect-credential
marker — a response page containing the marker makes the flow fail
immediately with the invalid-credentials `ExtractorError` of the
matching branch, with no retry and no request after the one whose
response carried the marker (the final state is exactly the
credential POST's post-state). -/
theorem C9_try_again_marker_aborts (env : Env) (page_res : Page)
    (username passText uf pf : String) (st0 : St)
    (hb1 : ¬(hasSub page_res.body "Please wait ..." = true ∧
        hasSub page_res.body verizonMarkerNY = false))
    (huf : env.msoInfo.username_field = some uf)
    (hpf : env.msoInfo.password_field = some pf) :
    (∀ st1 p2, hasSub page_res.body "Verizon FiOS - sign in" = true →
      post_form env page_res "Logging in" [(uf, username), (pf, passText)] true st0 =
        (Except.ok p2, st1) →
      hasSub p2.body "Please try again." = true →
      verizonFlow env page_res username passText st0 =
        (Except.error (Err.extractor verizonWrongCredsMsg1 false), st1)) ∧
    (∀ u0 st1 p2, hasSub page_res.body "Verizon FiOS - sign in" = false →
      scanVarUrl page_res.body.toList = some u0 →
      post_form env
        ⟨(env.net ⟨vzUnescapeUrl u0, "Downloading SAML Login Page", []⟩).body,
          vzUnescapeUrl u0, []⟩
        "Logging in" [(uf, username), (pf, passText)] true
        { st0 with events := st0.events ++
          [Event.req ⟨vzUnescapeUrl u0, "Downloading SAML Login Page", []⟩] } =
        (Except.ok p2, st1) →
      hasSub p2.body "Please try again." = true →
      verizonFlow env page_res username passText st0 =
        (Except.error (Err.extractor verizonWrongCredsMsg2 false), st1)) := by
  constructor
  · intro st1 p2 hb2 hpost hmarker
    unfold verizonFlow
    rw [if_neg hb1, if_pos hb2]
    rw [huf, mgetField_some, mBind_mPure, hpf, mgetField_some, mBind_mPure]
    rw [mBind_run_ok _ _ _ _ _ hpost]
    rw [if_pos hmarker]
    rfl
  · intro u0 st1 p2 hb2 hvar hpost hmarker
    unfold verizonFlow
    rw [if_neg hb1, if_neg (by simp [hb2])]
    rw [hvar]
    rw [show searchOr (some u0) "SAML Redirect URL" = mPure u0 from rfl, mBind_mPure]
    have hdl : downloadPage env (vzUnescapeUrl u0) "Downloading SAML Login Page" [] st0 =
        (Except.ok (env.net ⟨vzUnescapeUrl u0, "Downloading SAML Login Page", []⟩),
         { st0 with events := st0.events ++
           [Event.req ⟨vzUnescapeUrl u0, "Downloading SAML Login Page", []⟩] }) := rfl
    rw [mBind_run_ok _ _ _ _ _ hdl]
    rw [huf, mgetField_some, mBind_mPure, hpf, mgetField_some, mBind_mPure]
    rw [mBind_run_ok _ _ _ _ _ hpost]
    rw [if_pos hmarker]
    rfl

/-- A Verizon-profile environment whose login POST answers with the
try-again marker. -/
def envC9 : Env :=
  { net := fun r =>
      if r.url = "https://ssoauth.verizon.com/login" then
        ⟨"Sorry. Please try again.", r.url, []⟩
      else blankPage,
    netJson := fun _ => ([], blankPage), msoId := some "Verizon",
    msoInfo := ⟨some "IDToken1", some "IDToken2", some "ssoauth.verizon.com"⟩,
    apUsername := some "u", apPassword := some "p",
    parseTs := parseDec, now := 0, fingerprint := "fp",
    hiddenInputs := fun _ => [], specialDriver := fun _ _ _ _ => mPure () }

/-- Witness for C9: the FiOS sign-in branch aborts on the marker right
after its single credential POST. -/
theorem C9_try_again_marker_aborts_witness :
    verizonFlow envC9
      ⟨"Verizon FiOS - sign in <form x action=\"https://ssoauth.verizon.com/login\">",
        "https://sp.auth.adobe.com/x", []⟩ "u" "p" ⟨[], []⟩ =
      (Except.error (Err.extractor verizonWrongCredsMsg1 false),
       ⟨[], [Event.req ⟨"https://ssoauth.verizon.com/login", "Logging in",
         [("IDToken1", "u"), ("IDToken2", "p")]⟩]⟩) := by
  have h := (C9_try_again_marker_aborts envC9
    ⟨"Verizon FiOS - sign in <form x action=\"https://ssoauth.verizon.com/login\">",
      "https://sp.auth.adobe.com/x", []⟩ "u" "p" "IDToken1" "IDToken2" ⟨[], []⟩
    (by decide) (by decide) (by decide)).1
    ⟨[], [Event.req ⟨"https://ssoauth.verizon.com/login", "Logging in",
      [("IDToken1", "u"), ("IDToken2", "p")]⟩]⟩
    ⟨"Sorry. Please try again.", "https://ssoauth.verizon.com/login", []⟩
    (by decide) (by decide) (by decide)
  exact h

end AdobePass
